import Mathlib

/-!
Shallow embedding of the authentication core of the school-management API
(src/controllers/authController.js, src/utils/mailHandlers.js) over the
Prisma data model (schema.prisma: admins / teachers / students,
personal_tokens, verification_tokens).

Modelling conventions:
- Machine state is the relational store, one Lean list per table, in table
  order (Prisma autoincrement ids correspond to append order; columns not
  read by any authentication decision - name, school, created_at/updated_at
  timestamps and the roles/permissions tables - are omitted).
- A signed JWT is modelled as a record of its payload fields plus iat, exp
  and the secret it was signed with; jsonwebtoken signing is deterministic,
  so string equality of serialized tokens coincides with equality of these
  records.  jwt.verify succeeds iff the secret matches and now < exp
  (signature + expiry check, as jsonwebtoken does).
- bcrypt.hash is modelled as an injective function of the password and
  bcrypt.compare as the matching check.
- Each Express handler is a pure function from the request data and the
  store to an HResult: the HTTP response, the net cookie effect, and the
  new store.  A JavaScript runtime exception escaping to the error
  middleware is the `Response.thrown` outcome.
- Times are epoch seconds (Nat).
-/

inductive Role : Type
  | admin
  | teacher
  | student
deriving DecidableEq, Repr

inductive Secret : Type
  | access
  | refresh
  | reset
deriving DecidableEq, Repr

inductive VerifyType : Type
  | EMAIL
  | PASSWORD_RESET
deriving DecidableEq, Repr

/-- A signed access/refresh JWT: payload is user.email and user.role,
as produced by jwt.sign in register, login and refreshAuthToken. -/
structure Jwt where
  email : String
  role : Role
  iat : Nat
  exp : Nat
  secret : Secret
deriving DecidableEq, Repr

/-- A signed password-reset JWT as produced by verifyResetCode: payload is
user.id and user.role.  When the matched verification row has no owner
column set, the source signs a payload whose id and role are the
JavaScript value undefined; the Option is none in that case. -/
structure ResetJwt where
  uid : Option Nat
  role : Option Role
  iat : Nat
  exp : Nat
  secret : Secret
deriving DecidableEq, Repr

/-- Row of the admins / teachers / students table (authentication-relevant
columns). -/
structure Principal where
  id : Nat
  email : String
  password : String
  email_verified_at : Option Nat
  is_suspended : Bool
deriving DecidableEq, Repr

/-- Row of personal_tokens (the refresh-session table). -/
structure PersonalToken where
  admin_id : Option Nat
  teacher_id : Option Nat
  student_id : Option Nat
  user_device : String
  refresh_token : Jwt
  expires_at : Nat
deriving DecidableEq, Repr

/-- Row of verification_tokens. -/
structure VerificationToken where
  admin_id : Option Nat
  teacher_id : Option Nat
  student_id : Option Nat
  code : Nat
  token : String
  verify_type : VerifyType
  expires_at : Nat
  created_at : Nat
deriving DecidableEq, Repr

/-- The relational store. -/
structure DB where
  admins : List Principal
  teachers : List Principal
  students : List Principal
  personal_tokens : List PersonalToken
  verification_tokens : List VerificationToken
deriving DecidableEq, Repr

/-- The authenticated requester placed on req.user by the auth middleware
(loaded from the principal table named by its role). -/
structure ReqUser where
  id : Nat
  email : String
  role : Role
  email_verified_at : Option Nat
deriving DecidableEq, Repr

/-- HTTP response sent to the client. -/
inductive Response : Type
  | json (status : Nat) (message : String)
  | jsonToken (status : Nat) (message : String) (accessToken : Jwt)
  | jsonResetToken (message : String) (resetToken : ResetJwt)
  | thrown (err : String)
deriving DecidableEq, Repr

/-- Net effect of a handler on the express_jwt cookie. -/
inductive CookieEff : Type
  | none
  | clear
  | set (t : Jwt)
deriving DecidableEq, Repr

/-- Result of running one handler. -/
structure HResult where
  res : Response
  cookie : CookieEff
  db : DB
deriving DecidableEq, Repr

/-- bcrypt.hash(password, 12), modelled as an injective function. -/
def bcryptHash (password : String) : String :=
  "$2b$12$" ++ password

/-- bcrypt.compare(password, hash). -/
def bcryptCompare (password hash : String) : Bool :=
  decide (hash = bcryptHash password)

/-- jwt.sign with the access secret and the given expiresIn lifetime;
register and login pass 86400 (1d), refreshAuthToken passes 120 (2m). -/
def signAccessToken (email : String) (role : Role) (iat lifetime : Nat) : Jwt :=
  { email := email, role := role, iat := iat, exp := iat + lifetime, secret := Secret.access }

/-- jwt.sign with the refresh secret; every call site uses expiresIn 7d
(604800 seconds). -/
def signRefreshToken (email : String) (role : Role) (iat : Nat) : Jwt :=
  { email := email, role := role, iat := iat, exp := iat + 604800, secret := Secret.refresh }

/-- jwt.verify: the signature check (secret match) plus the exp claim check;
jsonwebtoken rejects as soon as now is not before exp. -/
def jwtVerify (t : Jwt) (s : Secret) (now : Nat) : Bool :=
  decide (t.secret = s) && decide (now < t.exp)

/-- jwt.verify for the reset-token secret. -/
def resetJwtVerify (t : ResetJwt) (now : Nat) : Bool :=
  decide (t.secret = Secret.reset) && decide (now < t.exp)

/-- The principal table selected by a role (the source repeats a three-way
role branch at every access; this selector is that branch). -/
def DB.table (db : DB) : Role → List Principal
  | Role.admin => db.admins
  | Role.teacher => db.teachers
  | Role.student => db.students

/-- Replace the principal table selected by a role. -/
def DB.setTable (db : DB) (role : Role) (l : List Principal) : DB :=
  match role with
  | Role.admin => { db with admins := l }
  | Role.teacher => { db with teachers := l }
  | Role.student => { db with students := l }

/-- prisma.<table>.findUnique by unique email, on the table named by role. -/
def findPrincipalByEmail (db : DB) (role : Role) (email : String) : Option Principal :=
  (db.table role).find? (fun p => decide (p.email = email))

/-- prisma.<table>.findUnique by primary id, on the table named by role. -/
def findPrincipalById (db : DB) (role : Role) (i : Nat) : Option Principal :=
  (db.table role).find? (fun p => decide (p.id = i))

/-- Does this personal_tokens row belong to the principal (role, uid)?
Mirrors the three-way deleteMany filters admin_id / teacher_id /
student_id. -/
def ptOwner (r : PersonalToken) (role : Role) (uid : Nat) : Bool :=
  match role with
  | Role.admin => decide (r.admin_id = some uid)
  | Role.teacher => decide (r.teacher_id = some uid)
  | Role.student => decide (r.student_id = some uid)

/-- Does this verification_tokens row belong to the principal (role, uid)? -/
def vtOwner (v : VerificationToken) (role : Role) (uid : Nat) : Bool :=
  match role with
  | Role.admin => decide (v.admin_id = some uid)
  | Role.teacher => decide (v.teacher_id = some uid)
  | Role.student => decide (v.student_id = some uid)

/-- prisma.personal_tokens.deleteMany keyed on the owner column for the
role. -/
def deletePersonalTokensOf (db : DB) (role : Role) (uid : Nat) : DB :=
  { db with personal_tokens := db.personal_tokens.filter (fun r => !(ptOwner r role uid)) }

/-- Build a personal_tokens row with the owner column picked by role, as
the three create branches in register/login do. -/
def mkPersonalToken (role : Role) (uid : Nat) (rt : Jwt) (expiresAt : Nat) (device : String) : PersonalToken :=
  match role with
  | Role.admin => { admin_id := some uid, teacher_id := none, student_id := none,
                    user_device := device, refresh_token := rt, expires_at := expiresAt }
  | Role.teacher => { admin_id := none, teacher_id := some uid, student_id := none,
                      user_device := device, refresh_token := rt, expires_at := expiresAt }
  | Role.student => { admin_id := none, teacher_id := none, student_id := some uid,
                      user_device := device, refresh_token := rt, expires_at := expiresAt }

/-- Build a verification_tokens row with the owner column picked by role. -/
def mkVerificationToken (role : Role) (uid : Nat) (code : Nat) (token : String)
    (vt : VerifyType) (expiresAt createdAt : Nat) : VerificationToken :=
  match role with
  | Role.admin => { admin_id := some uid, teacher_id := none, student_id := none,
                    code := code, token := token, verify_type := vt,
                    expires_at := expiresAt, created_at := createdAt }
  | Role.teacher => { admin_id := none, teacher_id := some uid, student_id := none,
                      code := code, token := token, verify_type := vt,
                      expires_at := expiresAt, created_at := createdAt }
  | Role.student => { admin_id := none, teacher_id := none, student_id := some uid,
                      code := code, token := token, verify_type := vt,
                      expires_at := expiresAt, created_at := createdAt }

/-- prisma.<table>.update keyed on the unique email column: Prisma raises
P2025 when no row matches the where clause. -/
def updateWhereEmail (db : DB) (role : Role) (email : String)
    (f : Principal → Principal) : Except String DB :=
  if (db.table role).any (fun p => decide (p.email = email)) then
    Except.ok (db.setTable role ((db.table role).map
      (fun p => if p.email = email then f p else p)))
  else
    Except.error "P2025: record to update not found"

/-- Autoincrement id for a freshly created principal row. -/
def nextId (ps : List Principal) : Nat :=
  ps.foldr (fun p m => max (p.id + 1) m) 0

/-- sendEmailVerifyCode (src/utils/mailHandlers.js): nested create of one
verification_tokens row with verify_type EMAIL and expires_at = now + 1 day,
under an update of the principal table named by role, keyed on email.  The
mail dispatch itself has no effect on the store.  The uuid argument stands
for the fresh uuidv4() value. -/
def sendEmailVerifyCode (db : DB) (email : String) (role : Role) (code : Nat)
    (uuid : String) (now : Nat) : Except String DB :=
  match findPrincipalByEmail db role email with
  | none => Except.error "P2025: record to update not found"
  | some p =>
      Except.ok { db with verification_tokens :=
        db.verification_tokens ++
          [mkVerificationToken role p.id code uuid VerifyType.EMAIL (now + 86400) now] }

/-- Name string for a role, as carried in request bodies. -/
def roleName : Role → String
  | Role.admin => "admin"
  | Role.teacher => "teacher"
  | Role.student => "student"

/-- sendPasswordResetCode (src/utils/mailHandlers.js): it is declared with
parameters (email, code) but called as sendPasswordResetCode(email, role,
resetCode), so its code parameter receives the role string and the numeric
reset code is dropped; its first store call is prisma.users.update, and the
Prisma schema declares no users model, so prisma.users is the JavaScript
value undefined and the member access .update raises a TypeError before any
row is written or any mail is sent. -/
def sendPasswordResetCode (db : DB) (email : String) (codeArg : String) :
    Except String DB :=
  Except.error "TypeError: Cannot read properties of undefined (reading update)"

/-- register (authController.js 26-109): hash the password, create the admin
row, issue an EMAIL verification code, sign a 1-day access token and a 7-day
refresh token, persist the session row, set the refresh cookie, respond 201.
A duplicate email violates the unique constraint on admins.email. -/
def register (db : DB) (email password : String) (code : Nat) (uuid : String)
    (now : Nat) (device : String) : HResult :=
  if db.admins.any (fun p => decide (p.email = email)) then
    { res := Response.thrown "P2002: unique constraint failed on admins.email",
      cookie := CookieEff.none, db := db }
  else
    let admin : Principal :=
      { id := nextId db.admins, email := email, password := bcryptHash password,
        email_verified_at := none, is_suspended := false }
    let db1 : DB := { db with admins := db.admins ++ [admin] }
    match sendEmailVerifyCode db1 email Role.admin code uuid now with
    | Except.error e => { res := Response.thrown e, cookie := CookieEff.none, db := db }
    | Except.ok db2 =>
        let refreshTok := signRefreshToken admin.email Role.admin now
        { res := Response.jsonToken 201 "Account created"
            (signAccessToken admin.email Role.admin now 86400),
          cookie := CookieEff.set refreshTok,
          db := { db2 with personal_tokens :=
            db2.personal_tokens ++
              [mkPersonalToken Role.admin admin.id refreshTok refreshTok.exp device] } }

/-- resendEmail (authController.js 116-145): no-op success when the
requester is already verified; otherwise tx.admins.update (the admins table
is hardcoded here) with a nested deleteMany of verification rows whose
admin_id equals req.user.id, then sendEmailVerifyCode with the literal role
admin. -/
def resendEmail (db : DB) (user : ReqUser) (code : Nat) (uuid : String)
    (now : Nat) : HResult :=
  if user.email_verified_at.isSome then
    { res := Response.json 200 "Your email is already verified",
      cookie := CookieEff.none, db := db }
  else
    match db.admins.find? (fun p => decide (p.email = user.email)) with
    | none => { res := Response.thrown "P2025: record to update not found",
                cookie := CookieEff.none, db := db }
    | some found =>
        let db1 : DB := { db with verification_tokens :=
          db.verification_tokens.filter (fun v =>
            !(decide (v.admin_id = some found.id) && decide (v.admin_id = some user.id))) }
        match sendEmailVerifyCode db1 user.email Role.admin code uuid now with
        | Except.error e => { res := Response.thrown e, cookie := CookieEff.none, db := db1 }
        | Except.ok db2 =>
            { res := Response.json 200 "A new verification code has been sent to your email",
              cookie := CookieEff.none, db := db2 }

/-- verifyEmail (authController.js 152-207): findFirst a verification row
matching both token and code (no owner check and no expires_at check); on no
match soft-respond Invalid Code; on a match stamp email_verified_at = now on
the requester (req.user) in the table named by the requester's role.  The
matched verification row is not deleted. -/
def verifyEmail (db : DB) (user : ReqUser) (token : String) (code : Nat)
    (now : Nat) : HResult :=
  match db.verification_tokens.find? (fun v =>
      decide (v.token = token) && decide (v.code = code)) with
  | none => { res := Response.json 200 "Invalid Code", cookie := CookieEff.none, db := db }
  | some _ =>
      match updateWhereEmail db user.role user.email
          (fun p => { p with email_verified_at := some now }) with
      | Except.error e => { res := Response.thrown e, cookie := CookieEff.none, db := db }
      | Except.ok db1 =>
          { res := Response.json 200 "Verification successful",
            cookie := CookieEff.none, db := db1 }

/-- login (authController.js 214-349): findUnique by email on the table
named by role; the very next statement bcrypt.compare(password,
user.password) dereferences user before any null check, so an unknown email
raises a TypeError that escapes to the error middleware; on a password
mismatch the generic 401 is thrown; on success (suspended check first) a
1-day access token and a 7-day refresh token are signed, a session row is
created and the refresh cookie is set. -/
def login (db : DB) (cookie : Option Jwt) (email password : String) (role : Role)
    (now : Nat) (device : String) : HResult :=
  let clearEff : CookieEff := if cookie.isSome then CookieEff.clear else CookieEff.none
  match findPrincipalByEmail db role email with
  | none =>
      { res := Response.thrown "TypeError: Cannot read properties of null (reading password)",
        cookie := clearEff, db := db }
  | some user =>
      if decide (email = user.email) && bcryptCompare password user.password then
        if user.is_suspended then
          { res := Response.json 403 "Your account is suspended", cookie := clearEff, db := db }
        else
          let refreshTok := signRefreshToken user.email role now
          { res := Response.jsonToken 200 "" (signAccessToken user.email role now 86400),
            cookie := CookieEff.set refreshTok,
            db := { db with personal_tokens :=
              db.personal_tokens ++
                [mkPersonalToken role user.id refreshTok refreshTok.exp device] } }
      else
        { res := Response.json 401 "Invalid email or password", cookie := clearEff, db := db }

/-- refreshAuthToken (authController.js 356-535): 401 without a cookie; the
cookie is cleared before either branch; zero rows matching the presented
token is the reuse path - verify the token anyway and, when it verifies and
the decoded principal exists, delete every session row of that principal,
responding 403 Forbidden in all reuse sub-cases; with a matching row, verify
and rotate: sign a 2-minute access token and a 7-day refresh token and
updateMany the matching rows in place, replacing refresh_token and
expires_at with the new token and its decoded exp. -/
def refreshAuthToken (db : DB) (cookie : Option Jwt) (now : Nat) : HResult :=
  match cookie with
  | none => { res := Response.json 401 "Unauthorized", cookie := CookieEff.none, db := db }
  | some presented =>
      if (db.personal_tokens.filter (fun r => decide (r.refresh_token = presented))).isEmpty then
        if jwtVerify presented Secret.refresh now then
          match findPrincipalByEmail db presented.role presented.email with
          | some compromised =>
              { res := Response.json 403 "Forbidden", cookie := CookieEff.clear,
                db := deletePersonalTokensOf db presented.role compromised.id }
          | none =>
              { res := Response.json 403 "Forbidden", cookie := CookieEff.clear, db := db }
        else
          { res := Response.json 403 "Forbidden", cookie := CookieEff.clear, db := db }
      else
        if jwtVerify presented Secret.refresh now then
          match findPrincipalByEmail db presented.role presented.email with
          | none => { res := Response.json 401 "Unauthorized", cookie := CookieEff.clear, db := db }
          | some user =>
              let newRefresh := signRefreshToken user.email presented.role now
              { res := Response.jsonToken 200 "" (signAccessToken user.email presented.role now 120),
                cookie := CookieEff.set newRefresh,
                db := { db with personal_tokens := db.personal_tokens.map (fun r =>
                  if r.refresh_token = presented then
                    { r with refresh_token := newRefresh, expires_at := newRefresh.exp }
                  else r) } }
        else
          { res := Response.json 403 "Forbidden", cookie := CookieEff.clear, db := db }

/-- resetPassword (authController.js 662-674): validate the body, then call
sendPasswordResetCode(email, role, resetCode); only if that returns does the
generic code-sent message go out. -/
def resetPassword (db : DB) (email : String) (role : Role) (resetCode : Nat) : HResult :=
  match sendPasswordResetCode db email (roleName role) with
  | Except.error e => { res := Response.thrown e, cookie := CookieEff.none, db := db }
  | Except.ok db1 =>
      { res := Response.json 200 "A verification code has been sent to your email",
        cookie := CookieEff.none, db := db1 }

/-- Owner of a verification row as computed by verifyResetCode (successive
if-statements on admin_id, teacher_id, student_id: a later owner column
overrides an earlier one). -/
def VerificationToken.owner (v : VerificationToken) : Option (Nat × Role) :=
  let o : Option (Nat × Role) :=
    match v.admin_id with
    | some i => some (i, Role.admin)
    | none => none
  let o : Option (Nat × Role) :=
    match v.teacher_id with
    | some i => some (i, Role.teacher)
    | none => o
  match v.student_id with
  | some i => some (i, Role.student)
  | none => o

/-- verifyResetCode (authController.js 681-730): findFirst by token and code
(again no expires_at check); soft Invalid Code on no match; on a match sign
a 4-minute reset token carrying the id and role read off the owner
columns. -/
def verifyResetCode (db : DB) (token : String) (code : Nat) (now : Nat) : HResult :=
  match db.verification_tokens.find? (fun v =>
      decide (v.token = token) && decide (v.code = code)) with
  | none => { res := Response.json 200 "Invalid Code", cookie := CookieEff.none, db := db }
  | some v =>
      { res := Response.jsonResetToken "Verification successful"
          { uid := v.owner.map Prod.fst, role := v.owner.map Prod.snd,
            iat := now, exp := now + 240, secret := Secret.reset },
        cookie := CookieEff.none, db := db }

/-- updatePassword (authController.js 737-870): 403 without a Bearer reset
token or when it fails verification; find the principal by the decoded id in
the table named by the decoded role, 404 when absent; delete every
personal_tokens row of the principal; store the bcrypt hash of the new
password via update keyed on the principal email, with a nested deleteMany
of every verification row of the principal. -/
def updatePassword (db : DB) (bearer : Option ResetJwt) (password : String)
    (now : Nat) : HResult :=
  match bearer with
  | none => { res := Response.json 403 "Forbidden", cookie := CookieEff.none, db := db }
  | some tok =>
      if resetJwtVerify tok now then
        match tok.role with
        | none => { res := Response.json 404 "User not found", cookie := CookieEff.none, db := db }
        | some r =>
            match tok.uid.bind (fun i => findPrincipalById db r i) with
            | none => { res := Response.json 404 "User not found", cookie := CookieEff.none, db := db }
            | some user =>
                let db1 := deletePersonalTokensOf db r user.id
                match updateWhereEmail db1 r user.email
                    (fun p => { p with password := bcryptHash password }) with
                | Except.error e =>
                    { res := Response.thrown e, cookie := CookieEff.none, db := db1 }
                | Except.ok db2 =>
                    { res := Response.json 200 "Password has been updated",
                      cookie := CookieEff.none,
                      db := { db2 with verification_tokens :=
                        db2.verification_tokens.filter (fun v => !(vtOwner v r user.id)) } }
      else
        { res := Response.json 403 "Forbidden", cookie := CookieEff.none, db := db }

/-- logout (authController.js 551-577): delete the rows matching the cookie
token exactly and clear the cookie. -/
def logout (db : DB) (cookie : Option Jwt) : HResult :=
  match cookie with
  | none => { res := Response.json 401 "Unauthorized", cookie := CookieEff.none, db := db }
  | some presented =>
      { res := Response.json 200 "You are now logged out", cookie := CookieEff.clear,
        db := { db with personal_tokens :=
          db.personal_tokens.filter (fun r => !(decide (r.refresh_token = presented))) } }

/-! Concrete fixtures and theorems for the claims. -/

def c2Admin : Principal :=
  { id := 1, email := "a@x.com", password := bcryptHash "pw",
    email_verified_at := none, is_suspended := false }

def c2Row : VerificationToken :=
  { admin_id := some 1, teacher_id := none, student_id := none,
    code := 33333333, token := "tk2", verify_type := VerifyType.EMAIL,
    expires_at := 2000, created_at := 0 }

def c2DB : DB :=
  { admins := [c2Admin], teachers := [], students := [],
    personal_tokens := [], verification_tokens := [c2Row] }

def c2User : ReqUser :=
  { id := 1, email := "a@x.com", role := Role.admin, email_verified_at := none }

/-- C2: the claim says that after verify-email has succeeded once the matched
verification_tokens row is invalidated so that replaying the same token and
code pair yields the soft Invalid Code response.  The source never deletes
the matched row, so after a first successful call the row is still stored
and a second call with the same pair succeeds again. -/
theorem verifyEmail_code_not_single_use :
    (verifyEmail c2DB c2User "tk2" 33333333 100).res
      = Response.json 200 "Verification successful"
    ∧ c2Row ∈ (verifyEmail c2DB c2User "tk2" 33333333 100).db.verification_tokens
    ∧ (verifyEmail (verifyEmail c2DB c2User "tk2" 33333333 100).db c2User
        "tk2" 33333333 101).res = Response.json 200 "Verification successful" := by
  decide

def c4Admin : Principal :=
  { id := 1, email := "a@x.com", password := bcryptHash "right",
    email_verified_at := some 5, is_suspended := false }

def c4DB : DB :=
  { admins := [c4Admin], teachers := [], students := [],
    personal_tokens := [], verification_tokens := [] }

/-- C4: the claim says both an unknown email and a wrong password produce the
single generic 401 with no session row.  The wrong-password half holds, but
for an unknown email the handler dereferences the absent principal in
bcrypt.compare before any existence check, so the request dies with a
TypeError (surfaced as an internal error, not a 401); no session row is
created in either case. -/
theorem login_unknown_email_crashes :
    (login c4DB none "ghost@x.com" "pw" Role.admin 1000 "unknown").res
      = Response.thrown "TypeError: Cannot read properties of null (reading password)"
    ∧ (login c4DB none "ghost@x.com" "pw" Role.admin 1000 "unknown").db = c4DB
    ∧ login c4DB none "a@x.com" "wrong" Role.admin 1000 "unknown"
      = { res := Response.json 401 "Invalid email or password",
          cookie := CookieEff.none, db := c4DB } := by
  decide

def c5Admin : Principal :=
  { id := 1, email := "a@x.com", password := bcryptHash "pw",
    email_verified_at := none, is_suspended := false }

def c5Row : VerificationToken :=
  { admin_id := some 1, teacher_id := none, student_id := none,
    code := 44444444, token := "tk5", verify_type := VerifyType.EMAIL,
    expires_at := 50, created_at := 0 }

def c5DB : DB :=
  { admins := [c5Admin], teachers := [], students := [],
    personal_tokens := [], verification_tokens := [c5Row] }

def c5User : ReqUser :=
  { id := 1, email := "a@x.com", role := Role.admin, email_verified_at := none }

/-- C5: the claim says a matched verification row whose expires_at has
passed is treated as invalid at verification time.  Neither verify-email nor
verify-reset-code inspects expires_at: at time 1000 a row that expired at 50
still matches and both flows report success (verify-reset-code even signs a
reset token for the row owner). -/
theorem verify_flows_ignore_expiry :
    c5Row.expires_at < 1000
    ∧ (verifyEmail c5DB c5User "tk5" 44444444 1000).res
        = Response.json 200 "Verification successful"
    ∧ (verifyResetCode c5DB "tk5" 44444444 1000).res
        = Response.jsonResetToken "Verification successful"
            { uid := some 1, role := some Role.admin, iat := 1000, exp := 1240,
              secret := Secret.reset } := by
  decide

def c6Admin : Principal :=
  { id := 1, email := "a@x.com", password := bcryptHash "pw",
    email_verified_at := some 5, is_suspended := false }

def c6DBwith : DB :=
  { admins := [c6Admin], teachers := [], students := [],
    personal_tokens := [], verification_tokens := [] }

def c6DBwithout : DB :=
  { admins := [], teachers := [], students := [],
    personal_tokens := [], verification_tokens := [] }

/-- C6: the claim says every well-formed request-password-reset call
completes with the generic code-sent message whether or not the account
exists.  sendPasswordResetCode starts with prisma.users.update, but the
schema declares no users model, so the call raises a TypeError for every
request - the flow never completes with the generic message, for existing
and missing accounts alike. -/
theorem resetPassword_always_throws :
    c6DBwith.admins.any (fun p => decide (p.email = "a@x.com")) = true
    ∧ c6DBwithout.admins.any (fun p => decide (p.email = "a@x.com")) = false
    ∧ resetPassword c6DBwith "a@x.com" Role.admin 12345678
      = { res := Response.thrown "TypeError: Cannot read properties of undefined (reading update)",
          cookie := CookieEff.none, db := c6DBwith }
    ∧ resetPassword c6DBwithout "a@x.com" Role.admin 12345678
      = { res := Response.thrown "TypeError: Cannot read properties of undefined (reading update)",
          cookie := CookieEff.none, db := c6DBwithout } := by
  decide

def c9Admin : Principal :=
  { id := 1, email := "a@x.com", password := bcryptHash "pw",
    email_verified_at := none, is_suspended := false }

def c9ResetRow : VerificationToken :=
  { admin_id := some 1, teacher_id := none, student_id := none,
    code := 22222222, token := "tk9", verify_type := VerifyType.PASSWORD_RESET,
    expires_at := 99999, created_at := 0 }

def c9DB : DB :=
  { admins := [c9Admin], teachers := [], students := [],
    personal_tokens := [], verification_tokens := [c9ResetRow] }

def c9User : ReqUser :=
  { id := 1, email := "a@x.com", role := Role.admin, email_verified_at := none }

/-- C9 counterexample: the claim says a resend-verification request leaves
the requester PASSWORD_RESET verification rows unchanged.  The nested
deleteMany filters only on admin_id, so an unverified admin who also holds a
pending PASSWORD_RESET row loses that row on resend. -/
theorem resendEmail_deletes_password_reset_rows :
    c9ResetRow ∈ c9DB.verification_tokens
    ∧ c9ResetRow.verify_type = VerifyType.PASSWORD_RESET
    ∧ (resendEmail c9DB c9User 11111111 "uuid9" 1000).res
        = Response.json 200 "A new verification code has been sent to your email"
    ∧ c9ResetRow ∉ (resendEmail c9DB c9User 11111111 "uuid9" 1000).db.verification_tokens := by
  decide

/-! Small frame lemmas about the table selectors. -/

theorem table_setTable_same (db : DB) (r : Role) (l : List Principal) :
    (db.setTable r l).table r = l := by
  cases r <;> rfl

theorem table_setTable_other (db : DB) (r r2 : Role) (l : List Principal)
    (h : r2 ≠ r) : (db.setTable r l).table r2 = db.table r2 := by
  cases r <;> cases r2 <;> first | rfl | exact absurd rfl h

theorem personal_tokens_setTable (db : DB) (r : Role) (l : List Principal) :
    (db.setTable r l).personal_tokens = db.personal_tokens := by
  cases r <;> rfl

theorem verification_tokens_setTable (db : DB) (r : Role) (l : List Principal) :
    (db.setTable r l).verification_tokens = db.verification_tokens := by
  cases r <;> rfl

theorem table_deletePersonalTokensOf (db : DB) (role : Role) (uid : Nat) (r2 : Role) :
    (deletePersonalTokensOf db role uid).table r2 = db.table r2 := by
  cases r2 <;> rfl

/-- C1: when the presented refresh token matches zero stored session rows,
the response is 403 Forbidden with the cookie cleared - identically in the
verifying and non-verifying sub-cases, so the client cannot tell them
apart; when the token verifies against the refresh secret, every session
row of the principal its payload names is deleted; when it does not verify,
the store is untouched. -/
theorem refresh_reuse_detection (db : DB) (t : Jwt) (now : Nat)
    (hempty : (db.personal_tokens.filter (fun r => decide (r.refresh_token = t))).isEmpty = true) :
    (refreshAuthToken db (some t) now).res = Response.json 403 "Forbidden"
    ∧ (refreshAuthToken db (some t) now).cookie = CookieEff.clear
    ∧ (jwtVerify t Secret.refresh now = true →
        ∀ u, findPrincipalByEmail db t.role t.email = some u →
          ∀ r ∈ (refreshAuthToken db (some t) now).db.personal_tokens,
            ptOwner r t.role u.id = false)
    ∧ (jwtVerify t Secret.refresh now = false →
        (refreshAuthToken db (some t) now).db = db) := by
  refine ⟨?_, ?_, ?_, ?_⟩
  · simp only [refreshAuthToken, hempty, if_true]
    cases hv : jwtVerify t Secret.refresh now
    · simp
    · cases hf : findPrincipalByEmail db t.role t.email <;> simp
  · simp only [refreshAuthToken, hempty, if_true]
    cases hv : jwtVerify t Secret.refresh now
    · simp
    · cases hf : findPrincipalByEmail db t.role t.email <;> simp
  · intro hv u hu r hr
    simp only [refreshAuthToken, hempty, if_true, hv, hu] at hr
    simp only [deletePersonalTokensOf, List.mem_filter] at hr
    simpa using hr.2
  · intro hv
    simp only [refreshAuthToken, hempty, hv, if_true, Bool.false_eq_true, if_false]

def c1Admin : Principal :=
  { id := 1, email := "a@x.com", password := bcryptHash "pw",
    email_verified_at := some 5, is_suspended := false }

def c1Stored : Jwt := signRefreshToken "a@x.com" Role.admin 1

def c1Presented : Jwt := signRefreshToken "a@x.com" Role.admin 0

def c1DB : DB :=
  { admins := [c1Admin], teachers := [], students := [],
    personal_tokens := [mkPersonalToken Role.admin 1 c1Stored c1Stored.exp "unknown"],
    verification_tokens := [] }

/-- Witness for C1: a replayed rotated-out token (signed at 1 rather than
the stored 0) matches no row of the one-session store, and the reuse path
fires. -/
theorem refresh_reuse_detection_witness :
    (c1DB.personal_tokens.filter (fun r => decide (r.refresh_token = c1Presented))).isEmpty = true
    ∧ ((refreshAuthToken c1DB (some c1Presented) 10).res = Response.json 403 "Forbidden"
      ∧ (refreshAuthToken c1DB (some c1Presented) 10).cookie = CookieEff.clear
      ∧ (jwtVerify c1Presented Secret.refresh 10 = true →
          ∀ u, findPrincipalByEmail c1DB c1Presented.role c1Presented.email = some u →
            ∀ r ∈ (refreshAuthToken c1DB (some c1Presented) 10).db.personal_tokens,
              ptOwner r c1Presented.role u.id = false)
      ∧ (jwtVerify c1Presented Secret.refresh 10 = false →
          (refreshAuthToken c1DB (some c1Presented) 10).db = c1DB)) :=
  ⟨by decide, refresh_reuse_detection c1DB c1Presented 10 (by decide)⟩

/-- C3: a successful rotation (the presented token matches at least one
stored row, verifies, and its principal exists) rewrites exactly the
matching rows in place, replacing refresh_token with the newly signed 7-day
token and expires_at with that token's decoded exp; the row count is
unchanged (no insert), rows of other principals are untouched, and the
invariant that the stored expiry equals the embedded expiry of the stored
token is preserved. -/
theorem refresh_rotation_in_place (db : DB) (t : Jwt) (now : Nat) (u : Principal)
    (hne : (db.personal_tokens.filter (fun r => decide (r.refresh_token = t))).isEmpty = false)
    (hver : jwtVerify t Secret.refresh now = true)
    (hu : findPrincipalByEmail db t.role t.email = some u)
    (hown : ∀ r ∈ db.personal_tokens, r.refresh_token = t → ptOwner r t.role u.id = true) :
    (refreshAuthToken db (some t) now).db.personal_tokens
      = db.personal_tokens.map (fun r =>
          if r.refresh_token = t then
            { r with refresh_token := signRefreshToken u.email t.role now,
                     expires_at := (signRefreshToken u.email t.role now).exp }
          else r)
    ∧ (refreshAuthToken db (some t) now).db.personal_tokens.length
        = db.personal_tokens.length
    ∧ (signRefreshToken u.email t.role now).secret = Secret.refresh
    ∧ (signRefreshToken u.email t.role now).exp = now + 604800
    ∧ (∀ r ∈ db.personal_tokens, ptOwner r t.role u.id = false →
        r ∈ (refreshAuthToken db (some t) now).db.personal_tokens)
    ∧ ((∀ r ∈ db.personal_tokens, r.expires_at = r.refresh_token.exp) →
        ∀ r ∈ (refreshAuthToken db (some t) now).db.personal_tokens,
          r.expires_at = r.refresh_token.exp) := by
  have heval : (refreshAuthToken db (some t) now).db.personal_tokens
      = db.personal_tokens.map (fun r =>
          if r.refresh_token = t then
            { r with refresh_token := signRefreshToken u.email t.role now,
                     expires_at := (signRefreshToken u.email t.role now).exp }
          else r) := by
    simp only [refreshAuthToken, hne, Bool.false_eq_true, if_false, hver, if_true, hu]
  refine ⟨heval, ?_, rfl, rfl, ?_, ?_⟩
  · rw [heval, List.length_map]
  · intro r hr hro
    have hne2 : ¬(r.refresh_token = t) := by
      intro h
      rw [hown r hr h] at hro
      exact absurd hro (by simp)
    rw [heval]
    have : (fun r : PersonalToken =>
        if r.refresh_token = t then
          { r with refresh_token := signRefreshToken u.email t.role now,
                   expires_at := (signRefreshToken u.email t.role now).exp }
        else r) r = r := by
      simp [hne2]
    exact this ▸ List.mem_map_of_mem _ hr
  · intro hinv r hr
    rw [heval] at hr
    rcases List.mem_map.mp hr with ⟨s, hs, rfl⟩
    by_cases h : s.refresh_token = t
    · simp [h]
    · simp only [h, if_false, if_neg h]
      exact hinv s hs

def c3Admin : Principal :=
  { id := 1, email := "a@x.com", password := bcryptHash "pw",
    email_verified_at := some 5, is_suspended := false }

def c3Tok : Jwt := signRefreshToken "a@x.com" Role.admin 0

def c3DB : DB :=
  { admins := [c3Admin], teachers := [], students := [],
    personal_tokens := [mkPersonalToken Role.admin 1 c3Tok c3Tok.exp "unknown"],
    verification_tokens := [] }

/-- Witness for C3: rotating the one live session of the one admin. -/
theorem refresh_rotation_in_place_witness :
    ((c3DB.personal_tokens.filter (fun r => decide (r.refresh_token = c3Tok))).isEmpty = false
      ∧ jwtVerify c3Tok Secret.refresh 10 = true
      ∧ findPrincipalByEmail c3DB c3Tok.role c3Tok.email = some c3Admin
      ∧ ∀ r ∈ c3DB.personal_tokens, r.refresh_token = c3Tok →
          ptOwner r c3Tok.role c3Admin.id = true)
    ∧ ((refreshAuthToken c3DB (some c3Tok) 10).db.personal_tokens
        = c3DB.personal_tokens.map (fun r =>
            if r.refresh_token = c3Tok then
              { r with refresh_token := signRefreshToken c3Admin.email c3Tok.role 10,
                       expires_at := (signRefreshToken c3Admin.email c3Tok.role 10).exp }
            else r)
      ∧ (refreshAuthToken c3DB (some c3Tok) 10).db.personal_tokens.length
          = c3DB.personal_tokens.length
      ∧ (signRefreshToken c3Admin.email c3Tok.role 10).secret = Secret.refresh
      ∧ (signRefreshToken c3Admin.email c3Tok.role 10).exp = 10 + 604800
      ∧ (∀ r ∈ c3DB.personal_tokens, ptOwner r c3Tok.role c3Admin.id = false →
          r ∈ (refreshAuthToken c3DB (some c3Tok) 10).db.personal_tokens)
      ∧ ((∀ r ∈ c3DB.personal_tokens, r.expires_at = r.refresh_token.exp) →
          ∀ r ∈ (refreshAuthToken c3DB (some c3Tok) 10).db.personal_tokens,
            r.expires_at = r.refresh_token.exp)) :=
  ⟨⟨by decide, by decide, by decide, by decide⟩,
    refresh_rotation_in_place c3DB c3Tok 10 c3Admin
      (by decide) (by decide) (by decide) (by decide)⟩

/-- C10: the verify-email lookup matches on token and code alone - no
ownership hypothesis is needed - and on a match the flow succeeds and
stamps email_verified_at on the requester (req.user) in the table named by
the requester role, leaving every other table and both token tables
untouched; in particular the principal the code was issued to is only
affected if it happens to be the requester. -/
theorem verifyEmail_no_ownership_check (db : DB) (user : ReqUser) (token : String)
    (code : Nat) (now : Nat) (v : VerificationToken)
    (hfind : db.verification_tokens.find? (fun w =>
        decide (w.token = token) && decide (w.code = code)) = some v)
    (hexists : (db.table user.role).any (fun p => decide (p.email = user.email)) = true) :
    (verifyEmail db user token code now).res = Response.json 200 "Verification successful"
    ∧ (verifyEmail db user token code now).db.table user.role
        = (db.table user.role).map (fun p =>
            if p.email = user.email then { p with email_verified_at := some now } else p)
    ∧ (∀ r2 : Role, r2 ≠ user.role →
        (verifyEmail db user token code now).db.table r2 = db.table r2)
    ∧ (verifyEmail db user token code now).db.personal_tokens = db.personal_tokens
    ∧ (verifyEmail db user token code now).db.verification_tokens = db.verification_tokens := by
  have heval : verifyEmail db user token code now
      = { res := Response.json 200 "Verification successful", cookie := CookieEff.none,
          db := db.setTable user.role ((db.table user.role).map
            (fun p => if p.email = user.email then { p with email_verified_at := some now }
                      else p)) } := by
    simp only [verifyEmail, hfind, updateWhereEmail, hexists, if_true]
  rw [heval]
  exact ⟨rfl, table_setTable_same _ _ _,
    fun r2 h => table_setTable_other _ _ _ _ h,
    personal_tokens_setTable _ _ _, verification_tokens_setTable _ _ _⟩

def c10AdminA : Principal :=
  { id := 1, email := "a@x.com", password := bcryptHash "pwa",
    email_verified_at := none, is_suspended := false }

def c10AdminB : Principal :=
  { id := 2, email := "b@x.com", password := bcryptHash "pwb",
    email_verified_at := none, is_suspended := false }

def c10Row : VerificationToken :=
  { admin_id := some 2, teacher_id := none, student_id := none,
    code := 55555555, token := "tkB", verify_type := VerifyType.EMAIL,
    expires_at := 99999, created_at := 0 }

def c10DB : DB :=
  { admins := [c10AdminA, c10AdminB], teachers := [], students := [],
    personal_tokens := [], verification_tokens := [c10Row] }

def c10User : ReqUser :=
  { id := 1, email := "a@x.com", role := Role.admin, email_verified_at := none }

/-- Witness for C10: admin A presents the code issued to admin B; the flow
succeeds and verifies A, not B. -/
theorem verifyEmail_no_ownership_check_witness :
    (c10DB.verification_tokens.find? (fun w =>
        decide (w.token = "tkB") && decide (w.code = 55555555)) = some c10Row
      ∧ c10Row.admin_id = some c10AdminB.id
      ∧ c10AdminB.id ≠ c10User.id
      ∧ (c10DB.table c10User.role).any (fun p => decide (p.email = c10User.email)) = true)
    ∧ ((verifyEmail c10DB c10User "tkB" 55555555 1000).res
        = Response.json 200 "Verification successful"
      ∧ (verifyEmail c10DB c10User "tkB" 55555555 1000).db.table c10User.role
          = (c10DB.table c10User.role).map (fun p =>
              if p.email = c10User.email then { p with email_verified_at := some 1000 }
              else p)
      ∧ (∀ r2 : Role, r2 ≠ c10User.role →
          (verifyEmail c10DB c10User "tkB" 55555555 1000).db.table r2 = c10DB.table r2)
      ∧ (verifyEmail c10DB c10User "tkB" 55555555 1000).db.personal_tokens
          = c10DB.personal_tokens
      ∧ (verifyEmail c10DB c10User "tkB" 55555555 1000).db.verification_tokens
          = c10DB.verification_tokens) :=
  ⟨⟨by decide, by decide, by decide, by decide⟩,
    verifyEmail_no_ownership_check c10DB c10User "tkB" 55555555 1000 c10Row
      (by decide) (by decide)⟩

/-- C9 amended: a resend-verification request by an already verified
requester is a complete no-op success; otherwise (for an admin requester,
the handler operates on the admins table only and passes the literal role
admin) ALL of the requester verification-code rows - EMAIL and
PASSWORD_RESET alike - are deleted and one fresh EMAIL code is issued;
verification rows of every other principal, the admins table and the
session table are unchanged. -/
theorem resendEmail_amended (db : DB) (user : ReqUser) (code : Nat) (uuid : String)
    (now : Nat) (u0 : Principal)
    (hfind : db.admins.find? (fun p => decide (p.email = user.email)) = some u0)
    (hid : u0.id = user.id) :
    (user.email_verified_at.isSome = true →
      resendEmail db user code uuid now
        = { res := Response.json 200 "Your email is already verified",
            cookie := CookieEff.none, db := db })
    ∧ (user.email_verified_at = none →
        (resendEmail db user code uuid now).res
          = Response.json 200 "A new verification code has been sent to your email"
        ∧ (resendEmail db user code uuid now).db.verification_tokens
            = db.verification_tokens.filter (fun v => !(decide (v.admin_id = some user.id)))
              ++ [mkVerificationToken Role.admin u0.id code uuid VerifyType.EMAIL
                    (now + 86400) now]
        ∧ (∀ v ∈ db.verification_tokens, v.admin_id ≠ some user.id →
            v ∈ (resendEmail db user code uuid now).db.verification_tokens)
        ∧ (resendEmail db user code uuid now).db.admins = db.admins
        ∧ (resendEmail db user code uuid now).db.personal_tokens = db.personal_tokens) := by
  constructor
  · intro hv
    simp only [resendEmail, hv, if_true]
  · intro hv
    have hpred : (fun v : VerificationToken =>
        !(decide (v.admin_id = some u0.id) && decide (v.admin_id = some user.id)))
        = (fun v : VerificationToken => !(decide (v.admin_id = some user.id))) := by
      funext v
      rw [hid, Bool.and_self]
    have heval : resendEmail db user code uuid now
        = { res := Response.json 200 "A new verification code has been sent to your email",
            cookie := CookieEff.none,
            db := { db with verification_tokens :=
              (db.verification_tokens.filter (fun v => !(decide (v.admin_id = some user.id)))
                ++ [mkVerificationToken Role.admin u0.id code uuid VerifyType.EMAIL
                      (now + 86400) now]) } } := by
      simp only [resendEmail, hv, Option.isSome_none, Bool.false_eq_true, if_false,
        hfind, hpred, sendEmailVerifyCode, findPrincipalByEmail, DB.table]
    rw [heval]
    refine ⟨rfl, rfl, ?_, rfl, rfl⟩
    intro v hvm hvo
    exact List.mem_append_left _ (List.mem_filter.mpr ⟨hvm, by simpa using hvo⟩)

/-- Witness for the amended C9: the unverified admin of the C9 store (who
holds a pending PASSWORD_RESET row) resends; the whole row set is replaced
by the one fresh EMAIL row. -/
theorem resendEmail_amended_witness :
    (c9DB.admins.find? (fun p => decide (p.email = c9User.email)) = some c9Admin
      ∧ c9Admin.id = c9User.id)
    ∧ ((c9User.email_verified_at.isSome = true →
        resendEmail c9DB c9User 11111111 "uuid9" 1000
          = { res := Response.json 200 "Your email is already verified",
              cookie := CookieEff.none, db := c9DB })
      ∧ (c9User.email_verified_at = none →
          (resendEmail c9DB c9User 11111111 "uuid9" 1000).res
            = Response.json 200 "A new verification code has been sent to your email"
          ∧ (resendEmail c9DB c9User 11111111 "uuid9" 1000).db.verification_tokens
              = c9DB.verification_tokens.filter
                  (fun v => !(decide (v.admin_id = some c9User.id)))
                ++ [mkVerificationToken Role.admin c9Admin.id 11111111 "uuid9"
                      VerifyType.EMAIL (1000 + 86400) 1000]
          ∧ (∀ v ∈ c9DB.verification_tokens, v.admin_id ≠ some c9User.id →
              v ∈ (resendEmail c9DB c9User 11111111 "uuid9" 1000).db.verification_tokens)
          ∧ (resendEmail c9DB c9User 11111111 "uuid9" 1000).db.admins = c9DB.admins
          ∧ (resendEmail c9DB c9User 11111111 "uuid9" 1000).db.personal_tokens
              = c9DB.personal_tokens)) :=
  ⟨⟨by decide, by decide⟩,
    resendEmail_amended c9DB c9User 11111111 "uuid9" 1000 c9Admin (by decide) (by decide)⟩

theorem table_setVerificationTokens (db : DB) (l : List VerificationToken) (r : Role) :
    ({ db with verification_tokens := l }).table r = db.table r := by
  cases r <;> rfl

theorem personal_tokens_deletePersonalTokensOf (db : DB) (role : Role) (uid : Nat) :
    (deletePersonalTokensOf db role uid).personal_tokens
      = db.personal_tokens.filter (fun r => !(ptOwner r role uid)) := rfl

theorem verification_tokens_deletePersonalTokensOf (db : DB) (role : Role) (uid : Nat) :
    (deletePersonalTokensOf db role uid).verification_tokens
      = db.verification_tokens := rfl

/-- List.find? keyed on the id commutes with an id-preserving row update. -/
theorem find?_map_of_id_preserving (l : List Principal) (f : Principal → Principal)
    (hf : ∀ q, (f q).id = q.id) (i : Nat) :
    (l.map f).find? (fun q => decide (q.id = i))
      = (l.find? (fun q => decide (q.id = i))).map f := by
  induction l with
  | nil => rfl
  | cons a l ih =>
    by_cases h : a.id = i
    · simp [List.find?, hf, h]
    · simp [List.find?, hf, h, ih]

/-- C7: an update-password request with a verifying Bearer reset token whose
decoded id and role name an existing principal deletes every session row of
the principal, deletes every verification-code row of the principal, stores
the bcrypt hash of the new password on the principal row, and afterwards a
refresh attempt with any refresh token whose stored matches all belonged to
that principal falls into the reuse path and fails with 403 Forbidden. -/
theorem updatePassword_revokes_all (db : DB) (tok : ResetJwt) (pw : String)
    (now : Nat) (r : Role) (i : Nat) (p : Principal)
    (hver : resetJwtVerify tok now = true)
    (hrole : tok.role = some r)
    (huid : tok.uid = some i)
    (hp : findPrincipalById db r i = some p) :
    (updatePassword db (some tok) pw now).res
      = Response.json 200 "Password has been updated"
    ∧ (∀ s ∈ (updatePassword db (some tok) pw now).db.personal_tokens,
        ptOwner s r p.id = false)
    ∧ (∀ v ∈ (updatePassword db (some tok) pw now).db.verification_tokens,
        vtOwner v r p.id = false)
    ∧ findPrincipalById (updatePassword db (some tok) pw now).db r i
        = some { p with password := bcryptHash pw }
    ∧ (∀ t2 : Jwt, ∀ now2 : Nat,
        (∀ s ∈ db.personal_tokens, s.refresh_token = t2 → ptOwner s r p.id = true) →
        (refreshAuthToken (updatePassword db (some tok) pw now).db (some t2) now2).res
          = Response.json 403 "Forbidden") := by
  have hmem : p ∈ db.table r := by
    have := List.mem_of_find?_eq_some hp
    simpa [findPrincipalById] using this
  have hexists2 : ∃ x ∈ db.table r, x.email = p.email := ⟨p, hmem, rfl⟩
  have h1 : (updatePassword db (some tok) pw now).res
      = Response.json 200 "Password has been updated" := by
    simp [updatePassword, hver, hrole, huid, hp, updateWhereEmail,
      table_deletePersonalTokensOf, hexists2]
  have h2 : (updatePassword db (some tok) pw now).db.personal_tokens
      = db.personal_tokens.filter (fun s => !(ptOwner s r p.id)) := by
    simp [updatePassword, hver, hrole, huid, hp, updateWhereEmail,
      table_deletePersonalTokensOf, hexists2, personal_tokens_setTable,
      personal_tokens_deletePersonalTokensOf]
  have h3 : (updatePassword db (some tok) pw now).db.verification_tokens
      = db.verification_tokens.filter (fun v => !(vtOwner v r p.id)) := by
    simp [updatePassword, hver, hrole, huid, hp, updateWhereEmail,
      table_deletePersonalTokensOf, hexists2, verification_tokens_setTable,
      verification_tokens_deletePersonalTokensOf]
  have h4 : (updatePassword db (some tok) pw now).db.table r
      = (db.table r).map
          (fun q => if q.email = p.email then { q with password := bcryptHash pw } else q) := by
    simp [updatePassword, hver, hrole, huid, hp, updateWhereEmail,
      table_deletePersonalTokensOf, hexists2, table_setVerificationTokens,
      table_setTable_same]
  refine ⟨h1, ?_, ?_, ?_, ?_⟩
  · intro s hs
    rw [h2] at hs
    have := (List.mem_filter.mp hs).2
    simpa using this
  · intro v hv
    rw [h3] at hv
    have := (List.mem_filter.mp hv).2
    simpa using this
  · have hfid : ∀ q : Principal,
        ((fun q : Principal =>
          if q.email = p.email then { q with password := bcryptHash pw } else q) q).id
          = q.id := by
      intro q
      by_cases h : q.email = p.email <;> simp [h]
    rw [findPrincipalById, h4, find?_map_of_id_preserving _ _ hfid]
    have : (db.table r).find? (fun q => decide (q.id = i)) = some p := hp
    rw [this]
    simp
  · intro t2 now2 hall
    have hempty : ((updatePassword db (some tok) pw now).db.personal_tokens.filter
        (fun s => decide (s.refresh_token = t2))).isEmpty = true := by
      rw [h2]
      rw [List.isEmpty_iff]
      rw [List.filter_eq_nil_iff]
      intro s hs
      have hsmem := (List.mem_filter.mp hs).1
      have hsnot := (List.mem_filter.mp hs).2
      intro hst
      have : ptOwner s r p.id = true := hall s hsmem (by simpa using hst)
      rw [this] at hsnot
      simp at hsnot
    cases hc : jwtVerify t2 Secret.refresh now2
    · simp [refreshAuthToken, hempty, hc]
    · cases hf : findPrincipalByEmail (updatePassword db (some tok) pw now).db t2.role t2.email
      · simp [refreshAuthToken, hempty, hc, hf]
      · simp [refreshAuthToken, hempty, hc, hf]

def c7Admin : Principal :=
  { id := 1, email := "a@x.com", password := bcryptHash "old",
    email_verified_at := some 5, is_suspended := false }

def c7Session : PersonalToken :=
  mkPersonalToken Role.admin 1 (signRefreshToken "a@x.com" Role.admin 0)
    (signRefreshToken "a@x.com" Role.admin 0).exp "unknown"

def c7Code : VerificationToken :=
  { admin_id := some 1, teacher_id := none, student_id := none,
    code := 66666666, token := "tk7", verify_type := VerifyType.PASSWORD_RESET,
    expires_at := 99999, created_at := 0 }

def c7DB : DB :=
  { admins := [c7Admin], teachers := [], students := [],
    personal_tokens := [c7Session], verification_tokens := [c7Code] }

def c7Tok : ResetJwt :=
  { uid := some 1, role := some Role.admin, iat := 0, exp := 240,
    secret := Secret.reset }

/-- Witness for C7: the one admin completes a password reset; the session
row and the verification row disappear, the stored password becomes the new
hash, and the pre-update refresh token is rejected with 403. -/
theorem updatePassword_revokes_all_witness :
    (resetJwtVerify c7Tok 10 = true
      ∧ c7Tok.role = some Role.admin
      ∧ c7Tok.uid = some 1
      ∧ findPrincipalById c7DB Role.admin 1 = some c7Admin)
    ∧ ((updatePassword c7DB (some c7Tok) "newpw" 10).res
        = Response.json 200 "Password has been updated"
      ∧ (∀ s ∈ (updatePassword c7DB (some c7Tok) "newpw" 10).db.personal_tokens,
          ptOwner s Role.admin c7Admin.id = false)
      ∧ (∀ v ∈ (updatePassword c7DB (some c7Tok) "newpw" 10).db.verification_tokens,
          vtOwner v Role.admin c7Admin.id = false)
      ∧ findPrincipalById (updatePassword c7DB (some c7Tok) "newpw" 10).db Role.admin 1
          = some { c7Admin with password := bcryptHash "newpw" }
      ∧ (∀ t2 : Jwt, ∀ now2 : Nat,
          (∀ s ∈ c7DB.personal_tokens, s.refresh_token = t2 →
            ptOwner s Role.admin c7Admin.id = true) →
          (refreshAuthToken (updatePassword c7DB (some c7Tok) "newpw" 10).db
              (some t2) now2).res = Response.json 403 "Forbidden")) :=
  ⟨⟨by decide, by decide, by decide, by decide⟩,
    updatePassword_revokes_all c7DB c7Tok "newpw" 10 Role.admin 1 c7Admin
      (by decide) (by decide) (by decide) (by decide)⟩

/-- C8: every access token issued at register or login carries the access
secret with lifetime 86400 seconds (1 day), every access token issued by a
refresh rotation carries lifetime 120 seconds (2 minutes), every refresh
token set by register, login or rotation carries the refresh secret with
lifetime 604800 seconds (7 days), and the access-token payload names
exactly the principal email and role of the request. -/
theorem token_lifetimes (db : DB) (cookie : Option Jwt) (email password : String)
    (role : Role) (now : Nat) (device : String) (code : Nat) (uuid : String)
    (t : Jwt) (now2 : Nat) :
    (∀ st m a, (login db cookie email password role now device).res
        = Response.jsonToken st m a →
        a.secret = Secret.access ∧ a.exp = a.iat + 86400 ∧ a.role = role ∧ a.email = email)
    ∧ (∀ c, (login db cookie email password role now device).cookie = CookieEff.set c →
        c.secret = Secret.refresh ∧ c.exp = c.iat + 604800)
    ∧ (∀ st m a, (register db email password code uuid now device).res
        = Response.jsonToken st m a →
        a.secret = Secret.access ∧ a.exp = a.iat + 86400 ∧ a.role = Role.admin
          ∧ a.email = email)
    ∧ (∀ c, (register db email password code uuid now device).cookie = CookieEff.set c →
        c.secret = Secret.refresh ∧ c.exp = c.iat + 604800)
    ∧ (∀ st m a, (refreshAuthToken db (some t) now2).res = Response.jsonToken st m a →
        a.secret = Secret.access ∧ a.exp = a.iat + 120 ∧ a.role = t.role
          ∧ a.email = t.email)
    ∧ (∀ c, (refreshAuthToken db (some t) now2).cookie = CookieEff.set c →
        c.secret = Secret.refresh ∧ c.exp = c.iat + 604800) := by
  refine ⟨?_, ?_, ?_, ?_, ?_, ?_⟩
  · intro st m a h
    simp only [login] at h
    split at h
    · simp at h
    · rename_i user heq
      split at h
      · split at h
        · simp at h
        · simp only [HResult.res] at h
          have hue : user.email = email := by
            have h3 : (db.table role).find? (fun p => decide (p.email = email))
                = some user := heq
            have h4 := List.find?_some h3
            simpa using h4
          obtain ⟨h1, h2, h3⟩ := Response.jsonToken.inj h.symm
          subst h3
          simp [signAccessToken, hue]
      · simp at h
  · intro c h
    simp only [login] at h
    split at h
    · cases cookie <;> simp at h
    · rename_i user heq
      split at h
      · split at h
        · cases cookie <;> simp at h
        · simp only [HResult.cookie] at h
          obtain h1 := CookieEff.set.inj h.symm
          subst h1
          simp [signRefreshToken]
      · cases cookie <;> simp at h
  · intro st m a h
    simp only [register] at h
    split at h
    · simp at h
    · split at h
      · simp at h
      · simp only [HResult.res] at h
        obtain ⟨h1, h2, h3⟩ := Response.jsonToken.inj h.symm
        subst h3
        simp [signAccessToken]
  · intro c h
    simp only [register] at h
    split at h
    · simp at h
    · split at h
      · simp at h
      · simp only [HResult.cookie] at h
        obtain h1 := CookieEff.set.inj h.symm
        subst h1
        simp [signRefreshToken]
  · intro st m a h
    simp only [refreshAuthToken] at h
    split at h
    · split at h
      · split at h <;> simp at h
      · simp at h
    · split at h
      · split at h
        · simp at h
        · rename_i user heq
          simp only [HResult.res] at h
          have hue : user.email = t.email := by
            have h3 : (db.table t.role).find? (fun p => decide (p.email = t.email))
                = some user := heq
            have h4 := List.find?_some h3
            simpa using h4
          obtain ⟨h1, h2, h3⟩ := Response.jsonToken.inj h.symm
          subst h3
          simp [signAccessToken, hue]
      · simp at h
  · intro c h
    simp only [refreshAuthToken] at h
    split at h
    · split at h
      · split at h <;> simp at h
      · simp at h
    · split at h
      · split at h
        · simp at h
        · rename_i user heq
          simp only [HResult.cookie] at h
          have hue : user.email = t.email := by
            have h3 : (db.table t.role).find? (fun p => decide (p.email = t.email))
                = some user := heq
            have h4 := List.find?_some h3
            simpa using h4
          obtain h1 := CookieEff.set.inj h.symm
          subst h1
          simp [signRefreshToken]
      · simp at h

def c8Admin : Principal :=
  { id := 1, email := "a@x.com", password := bcryptHash "pw",
    email_verified_at := some 5, is_suspended := false }

def c8Tok : Jwt := signRefreshToken "a@x.com" Role.admin 500

def c8DB : DB :=
  { admins := [c8Admin], teachers := [], students := [],
    personal_tokens := [mkPersonalToken Role.admin 1 c8Tok c8Tok.exp "dev"],
    verification_tokens := [] }

/-- Witness for C8: a concrete successful login, register and refresh, each
returning a token with the stated secret, lifetime and payload. -/
theorem token_lifetimes_witness :
    ((login c8DB none "a@x.com" "pw" Role.admin 1000 "dev").res
        = Response.jsonToken 200 "" (signAccessToken "a@x.com" Role.admin 1000 86400)
      ∧ (login c8DB none "a@x.com" "pw" Role.admin 1000 "dev").cookie
        = CookieEff.set (signRefreshToken "a@x.com" Role.admin 1000)
      ∧ (register c8DB "new@x.com" "npw" 12345678 "u8" 1000 "dev").res
        = Response.jsonToken 201 "Account created"
            (signAccessToken "new@x.com" Role.admin 1000 86400)
      ∧ (register c8DB "new@x.com" "npw" 12345678 "u8" 1000 "dev").cookie
        = CookieEff.set (signRefreshToken "new@x.com" Role.admin 1000)
      ∧ (refreshAuthToken c8DB (some c8Tok) 600).res
        = Response.jsonToken 200 "" (signAccessToken "a@x.com" Role.admin 600 120)
      ∧ (refreshAuthToken c8DB (some c8Tok) 600).cookie
        = CookieEff.set (signRefreshToken "a@x.com" Role.admin 600))
    ∧ ((signAccessToken "a@x.com" Role.admin 1000 86400).secret = Secret.access
      ∧ (signAccessToken "a@x.com" Role.admin 1000 86400).exp
          = (signAccessToken "a@x.com" Role.admin 1000 86400).iat + 86400
      ∧ (signAccessToken "a@x.com" Role.admin 1000 86400).role = Role.admin
      ∧ (signAccessToken "a@x.com" Role.admin 1000 86400).email = "a@x.com")
    ∧ ((signRefreshToken "a@x.com" Role.admin 1000).secret = Secret.refresh
      ∧ (signRefreshToken "a@x.com" Role.admin 1000).exp
          = (signRefreshToken "a@x.com" Role.admin 1000).iat + 604800)
    ∧ ((signAccessToken "new@x.com" Role.admin 1000 86400).secret = Secret.access
      ∧ (signAccessToken "new@x.com" Role.admin 1000 86400).exp
          = (signAccessToken "new@x.com" Role.admin 1000 86400).iat + 86400
      ∧ (signAccessToken "new@x.com" Role.admin 1000 86400).role = Role.admin
      ∧ (signAccessToken "new@x.com" Role.admin 1000 86400).email = "new@x.com")
    ∧ ((signRefreshToken "new@x.com" Role.admin 1000).secret = Secret.refresh
      ∧ (signRefreshToken "new@x.com" Role.admin 1000).exp
          = (signRefreshToken "new@x.com" Role.admin 1000).iat + 604800)
    ∧ ((signAccessToken "a@x.com" Role.admin 600 120).secret = Secret.access
      ∧ (signAccessToken "a@x.com" Role.admin 600 120).exp
          = (signAccessToken "a@x.com" Role.admin 600 120).iat + 120
      ∧ (signAccessToken "a@x.com" Role.admin 600 120).role = c8Tok.role
      ∧ (signAccessToken "a@x.com" Role.admin 600 120).email = c8Tok.email)
    ∧ ((signRefreshToken "a@x.com" Role.admin 600).secret = Secret.refresh
      ∧ (signRefreshToken "a@x.com" Role.admin 600).exp
          = (signRefreshToken "a@x.com" Role.admin 600).iat + 604800) :=
  ⟨⟨by decide, by decide, by decide, by decide, by decide, by decide⟩,
    (token_lifetimes c8DB none "a@x.com" "pw" Role.admin 1000 "dev"
      12345678 "u8" c8Tok 600).1 200 "" _ (by decide),
    (token_lifetimes c8DB none "a@x.com" "pw" Role.admin 1000 "dev"
      12345678 "u8" c8Tok 600).2.1 _ (by decide),
    (token_lifetimes c8DB none "new@x.com" "npw" Role.admin 1000 "dev"
      12345678 "u8" c8Tok 600).2.2.1 201 "Account created" _ (by decide),
    (token_lifetimes c8DB none "new@x.com" "npw" Role.admin 1000 "dev"
      12345678 "u8" c8Tok 600).2.2.2.1 _ (by decide),
    (token_lifetimes c8DB none "a@x.com" "pw" Role.admin 1000 "dev"
      12345678 "u8" c8Tok 600).2.2.2.2.1 200 "" _ (by decide),
    (token_lifetimes c8DB none "a@x.com" "pw" Role.admin 1000 "dev"
      12345678 "u8" c8Tok 600).2.2.2.2.2 _ (by decide)⟩
